import Mathlib

/-!
Verification of the xmapi client shell: a shallow embedding of its
configuration resolver, authenticator and HTTP request facade, with theorems
checking the natural-language specification against the code.

The embedding follows `xmapi/__init__.py`, `xmapi/util.py` and
`xmapi/configfile.py`.  Python's mutable argparse namespace becomes an
explicit `Config` record threaded through the init steps; the mutable module
holder `_config_holder` becomes an `Option Config` passed in and returned;
the HTTP transport (`requests`) becomes an oracle `HttpRequest → HttpResponse`
together with an explicit list of the requests issued.
-/

namespace Xmapi

/-- Python truthiness of an optional string value: `None` and `""` are falsy,
every non-empty string is truthy. -/
def truthy : Option String → Bool
  | none => false
  | some s => s != ""

/-- First-match lookup in an association list, modelling lookup of a string
key in a Python dict (as rendered into a list of pairs). -/
def lookupKV : List (String × String) → String → Option String
  | [], _ => none
  | (k, v) :: rest, key => if k == key then some v else lookupKV rest key

/-- Lookup of a named section among the non-default sections of a parsed
configuration file set. -/
def findSection : List (String × List (String × String)) → String →
    Option (List (String × String))
  | [], _ => none
  | (n, kvs) :: rest, name => if n == name then some kvs else findSection rest name

/-- Merged configuration files in configparser style: named sections plus the
distinguished DEFAULT section.  configparser never stores a section literally
named DEFAULT among the ordinary sections; its entries live in `defaults` and
are visible from every section proxy. -/
structure ConfigFiles where
  sections : List (String × List (String × String))
  defaults : List (String × String)
deriving Repr, DecidableEq

/-- Membership test `name in config_file` with configparser semantics: the
default section name is always considered present. -/
def ConfigFiles.hasSection (cf : ConfigFiles) (name : String) : Bool :=
  name == "DEFAULT" || (findSection cf.sections name).isSome

/-- Item access `config_file[name][key]` with configparser semantics: a
section proxy falls back to the DEFAULT section for keys it lacks, and the
DEFAULT proxy reads the defaults directly. -/
def ConfigFiles.sectionGet (cf : ConfigFiles) (name key : String) : Option String :=
  if name == "DEFAULT" then lookupKV cf.defaults key
  else
    match findSection cf.sections name with
    | some kvs =>
      match lookupKV kvs key with
      | some v => some v
      | none => lookupKV cf.defaults key
    | none => none

/-- Embedding of `_get_item` from `xmapi/__init__.py`: command-line value if
truthy, else the chunk section (when the chunk name is truthy, present in the
file set, and the key is visible there), else the DEFAULT section, else the
caller-supplied default. -/
def get_item (cf : ConfigFiles) (value : Option String) (key : String)
    (default_value : Option String) (chunk : String) : Option String :=
  if truthy value then value
  else if chunk != "" && (cf.hasSection chunk && (cf.sectionGet chunk key).isSome) then
    cf.sectionGet chunk key
  else if (lookupKV cf.defaults key).isSome then lookupKV cf.defaults key
  else default_value

/-- Value of the key literally inside the named chunk section (the DEFAULT
chunk names the default section itself). -/
def chunkSectionValue (cf : ConfigFiles) (chunk key : String) : Option String :=
  if chunk == "DEFAULT" then lookupKV cf.defaults key
  else
    match findSection cf.sections chunk with
    | some kvs => lookupKV kvs key
    | none => none

/-- Modelled from the spec's words, for comparison with `get_item`:
"(1) if present on the command line, use it; (2) else if the named chunk
section exists in the merged config files and contains the key, use it;
(3) else if the default section contains the key, use it; (4) else use a
caller-supplied default (absent → unresolved)." -/
def get_item_spec (cf : ConfigFiles) (value : Option String) (key : String)
    (default_value : Option String) (chunk : String) : Option String :=
  if truthy value then value
  else
    match chunkSectionValue cf chunk key with
    | some v => some v
    | none =>
      match lookupKV cf.defaults key with
      | some v => some v
      | none => default_value

/-! ### Errors raised by the package

The Python code raises bare `Exception`s with message strings; this enum
tags each distinct raise site (plus the AttributeError that reading a never
assigned attribute such as `fail_on_error` would produce). -/

inductive InitError where
  | helpExit
  | noSubdomain
  | noKey
  | proxyUrlWithoutPort
  | proxyPortWithoutUrl
  | authFailed (status : Nat)
  | missingField (field : String)
  | apiError (status : Nat)
  | attributeError
  | notInitialized
deriving Repr, DecidableEq

/-! ### HTTP model

`HttpRequest` mirrors exactly the arguments the code passes to the
`requests` transport (`requests.request` / `requests.post`): verb, URL,
headers, body, query params — and `proxies`, which `requests` accepts but the
code never supplies, hence always `none` here. -/

structure HttpRequest where
  verb : String
  url : String
  headers : List (String × String)
  data : Option String
  params : List (String × String)
  proxies : Option (List (String × String))
deriving Repr, DecidableEq

/-- HTTP response as the code consumes it: status code and JSON object body
(string-valued fields). -/
structure HttpResponse where
  status_code : Nat
  jsonBody : List (String × String)
deriving Repr, DecidableEq

/-- Setting a header key in a header map, overwriting any previous value —
what `_HTTPBearerAuth.__call__` does to `r.headers['Authorization']`. -/
def set_header (hs : List (String × String)) (k v : String) :
    List (String × String) :=
  hs.filter (fun p => p.1 != k) ++ [(k, v)]

/-! ### Configuration record

The argparse namespace object, as mutated by `initialize`.  Attributes the
code assigns only later (`url`, `fail_on_error`, `access_token`,
`refresh_token`) are `Option`s starting as `none`. -/

structure Config where
  subdomain : Option String
  key : Option String
  chunk : String
  quiet : Bool
  verbose : Bool
  proxy_port : Option String
  proxy_url : Option String
  url : Option String
  fail_on_error : Option Bool
  access_token : Option String
  refresh_token : Option String
deriving Repr, DecidableEq

/-- Parsed command-line arguments, before `initialize` adds derived fields. -/
structure CliArgs where
  subdomain : Option String
  key : Option String
  chunk : String
  quiet : Bool
  verbose : Bool
  proxy_port : Option String
  proxy_url : Option String
deriving Repr, DecidableEq

/-- Configuration as it stands right after `_parser.parse_args()`. -/
def configOfArgs (a : CliArgs) : Config :=
  { subdomain := a.subdomain, key := a.key, chunk := a.chunk,
    quiet := a.quiet, verbose := a.verbose,
    proxy_port := a.proxy_port, proxy_url := a.proxy_url,
    url := none, fail_on_error := none,
    access_token := none, refresh_token := none }

/-- Embedding of `get_config`: raises when the process-wide holder is empty. -/
def get_config (holder : Option Config) : Except InitError Config :=
  match holder with
  | none => .error .notInitialized
  | some c => .ok c

/-- Embedding of `set_fail_on_error`. -/
def set_fail_on_error (c : Config) : Config := { c with fail_on_error := some true }

/-- Embedding of `set_log_on_error`. -/
def set_log_on_error (c : Config) : Config := { c with fail_on_error := some false }

/-! ### Error policy (`xmapi/util.py`) -/

/-- Outcome of an error handler invocation: it either raises or logs a line. -/
inductive HandlerAction where
  | raised (e : InitError)
  | logged (line : String)
deriving Repr, DecidableEq

/-- Log line written by `util.log_on_error`. -/
def errorLogLine (n : Nat) : String := s!"API returned error status code {n}"

/-- Embedding of `util.log_on_error`. -/
def log_on_error (resp : HttpResponse) : HandlerAction :=
  .logged (errorLogLine resp.status_code)

/-- Embedding of `util.fail_on_error`. -/
def fail_on_error (resp : HttpResponse) : HandlerAction :=
  .raised (.apiError resp.status_code)

/-- Embedding of `util.default_on_error`: reads the process-wide
`fail_on_error` toggle from the current configuration at call time (reading
the attribute before it was ever assigned would raise an AttributeError). -/
def default_on_error (cfg : Config) (resp : HttpResponse) : HandlerAction :=
  match cfg.fail_on_error with
  | some true => fail_on_error resp
  | some false => log_on_error resp
  | none => .raised .attributeError

/-! ### Path building and the request facade -/

/-- Percent-encoding safety per `urllib.parse.quote` with the default
`safe='/'`: ASCII letters, digits, `_ . - ~`, and the slash stay literal. -/
def quoteSafeByte (b : Nat) : Bool :=
  (65 ≤ b && b ≤ 90) || (97 ≤ b && b ≤ 122) || (48 ≤ b && b ≤ 57) ||
  b == 45 || b == 46 || b == 95 || b == 126 || b == 47

/-- Uppercase hexadecimal digit for a value below 16. -/
def hexDigitChar (n : Nat) : Char :=
  if n < 10 then Char.ofNat (48 + n) else Char.ofNat (55 + n)

/-- Percent-encoding of a single byte per `urllib.parse.quote`. -/
def quoteByte (b : Nat) : String :=
  if quoteSafeByte b then String.singleton (Char.ofNat b)
  else "%" ++ String.singleton (hexDigitChar (b / 16)) ++
       String.singleton (hexDigitChar (b % 16))

/-- Embedding of `urllib.parse.quote` (default safe set) on the UTF-8 bytes
of the string. -/
def quote (s : String) : String :=
  String.join (s.toUTF8.toList.map (fun b => quoteByte b.toNat))

/-- Path argument to the facade: a single string or a pre-split sequence of
segments, as the duck-typed Python `path` parameter. -/
inductive ApiPath where
  | str (s : String)
  | segs (l : List String)
deriving Repr, DecidableEq

/-- Embedding of `_build_path`: a string path is split on "/" only when
encoding is requested; with encoding on, every segment is percent-encoded;
a non-string path is joined with "/"; the result is prefixed with `/api/`. -/
def build_path (path : ApiPath) (encode_path : Bool) : String :=
  match path, encode_path with
  | .str s, false => "/api/" ++ s
  | .str s, true => "/api/" ++ String.intercalate "/" ((s.splitOn "/").map quote)
  | .segs l, false => "/api/" ++ String.intercalate "/" l
  | .segs l, true => "/api/" ++ String.intercalate "/" (l.map quote)

/-- Joined (and optionally per-segment percent-encoded) path, as the spec
words it, without the `/api/` prefix. -/
def joined_path (path : ApiPath) (encode_path : Bool) : String :=
  match path, encode_path with
  | .str s, false => s
  | .str s, true => String.intercalate "/" ((s.splitOn "/").map quote)
  | .segs l, false => String.intercalate "/" l
  | .segs l, true => String.intercalate "/" (l.map quote)

/-- Request constructed by `api_request`: URL is
`f"{config.url}/{_build_path(path, encode_path)}"`, auth is the bearer token
header set on the prepared request, and no proxies are passed. -/
def mkApiRequest (cfg : Config) (verb : String) (path : ApiPath)
    (encode_path : Bool) (data : Option String)
    (params headers : List (String × String)) : HttpRequest :=
  { verb := verb,
    url := cfg.url.getD "" ++ "/" ++ build_path path encode_path,
    headers := set_header headers "Authorization"
      ("Bearer " ++ cfg.access_token.getD ""),
    data := data, params := params, proxies := none }

/-- Result of one facade call: the request issued, whether the error handler
ran, the log lines it produced, and the overall outcome. -/
structure ApiCall where
  request : HttpRequest
  handler_invoked : Bool
  logs : List String
  outcome : Except InitError HttpResponse
deriving Repr

/-- Embedding of `api_request`: build the request, send it, and invoke the
error handler exactly when the status is outside 200–299; a handler that
logs lets the call return the raw response. -/
def api_request (cfg : Config) (http : HttpRequest → HttpResponse)
    (on_error : HttpResponse → HandlerAction) (verb : String) (path : ApiPath)
    (encode_path : Bool) (data : Option String)
    (params headers : List (String × String)) : ApiCall :=
  let req := mkApiRequest cfg verb path encode_path data params headers
  let resp := http req
  if resp.status_code < 200 || resp.status_code > 299 then
    match on_error resp with
    | .raised e => ⟨req, true, [], .error e⟩
    | .logged line => ⟨req, true, [line], .ok resp⟩
  else ⟨req, false, [], .ok resp⟩

/-- Embedding of `api_get`. -/
def api_get (cfg : Config) (http : HttpRequest → HttpResponse)
    (on_error : HttpResponse → HandlerAction) (path : ApiPath)
    (encode_path : Bool) (data : Option String)
    (params headers : List (String × String)) : ApiCall :=
  api_request cfg http on_error "get" path encode_path data params headers

/-- Embedding of `api_put`. -/
def api_put (cfg : Config) (http : HttpRequest → HttpResponse)
    (on_error : HttpResponse → HandlerAction) (path : ApiPath)
    (encode_path : Bool) (data : Option String)
    (params headers : List (String × String)) : ApiCall :=
  api_request cfg http on_error "put" path encode_path data params headers

/-- Embedding of `api_post`. -/
def api_post (cfg : Config) (http : HttpRequest → HttpResponse)
    (on_error : HttpResponse → HandlerAction) (path : ApiPath)
    (encode_path : Bool) (data : Option String)
    (params headers : List (String × String)) : ApiCall :=
  api_request cfg http on_error "post" path encode_path data params headers

/-- Embedding of `api_delete`. -/
def api_delete (cfg : Config) (http : HttpRequest → HttpResponse)
    (on_error : HttpResponse → HandlerAction) (path : ApiPath)
    (encode_path : Bool) (data : Option String)
    (params headers : List (String × String)) : ApiCall :=
  api_request cfg http on_error "delete" path encode_path data params headers

/-! ### Authenticator -/

/-- The single POST issued by `_authenticate`: unauthenticated, fixed
`/api/auth/` endpoint, API key in the `X-Api-Key` header, no proxies. -/
def mkAuthRequest (cfg : Config) : HttpRequest :=
  { verb := "post", url := cfg.url.getD "" ++ "/api/auth/",
    headers := [("X-Api-Key", cfg.key.getD "")],
    data := none, params := [], proxies := none }

/-- Result of `_authenticate`: the (possibly updated) configuration, the
requests issued, and the outcome. -/
structure AuthResult where
  config : Config
  requests : List HttpRequest
  outcome : Except InitError Unit
deriving Repr

/-- Embedding of `_authenticate`: one POST; non-200 raises with the status
code before any token is stored; on 200 the `accessToken` and `refreshToken`
fields of the JSON body are stored in order, a missing field raising a
KeyError at its own read. -/
def authenticate (cfg : Config) (http : HttpRequest → HttpResponse) : AuthResult :=
  let req := mkAuthRequest cfg
  let r := http req
  if r.status_code != 200 then ⟨cfg, [req], .error (.authFailed r.status_code)⟩
  else
    match lookupKV r.jsonBody "accessToken" with
    | none => ⟨cfg, [req], .error (.missingField "accessToken")⟩
    | some a =>
      match lookupKV r.jsonBody "refreshToken" with
      | none => ⟨{ cfg with access_token := some a }, [req],
                 .error (.missingField "refreshToken")⟩
      | some rt => ⟨{ cfg with access_token := some a, refresh_token := some rt },
                    [req], .ok ()⟩

/-! ### Initialization -/

/-- Empty config file set, the `{"DEFAULT": {}}` stand-in used when no file
was found. -/
def emptyConfigFiles : ConfigFiles := ⟨[], []⟩

/-- Derived base URL `https://{subdomain}.clients.xmcyber.com`. -/
def baseUrl (subdomain : String) : String :=
  "https://" ++ subdomain ++ ".clients.xmcyber.com"

/-- Resolution phase of `initialize` (lines 109–126): resolve subdomain, key,
url and the proxy pair in the code's order, mutating the configuration as the
code mutates `_cli_args`, and stopping at the first raise. -/
def resolveStep (args : CliArgs) (raw : ConfigFiles) :
    Config × Except InitError Unit :=
  let cfg0 := configOfArgs args
  let s := get_item raw args.subdomain "subdomain" none args.chunk
  let cfg1 := { cfg0 with subdomain := s }
  if truthy s = false then (cfg1, .error .noSubdomain)
  else
    let k := get_item raw args.key "key" none args.chunk
    let cfg2 := { cfg1 with key := k }
    if truthy k = false then (cfg2, .error .noKey)
    else
      let cfg3 := { cfg2 with url := some (baseUrl (s.getD "")) }
      let pp := get_item raw args.proxy_port "proxy_port" none args.chunk
      let pu := get_item raw args.proxy_url "proxy_url" none args.chunk
      let cfg4 := { cfg3 with proxy_port := pp, proxy_url := pu }
      if truthy pu then
        if truthy pp = false then (cfg4, .error .proxyUrlWithoutPort)
        else (cfg4, .ok ())
      else if truthy pp then (cfg4, .error .proxyPortWithoutUrl)
      else (cfg4, .ok ())

/-- Result of one call to the init entry point: the process-wide holder
afterwards, the outcome, and the authentication requests issued. -/
structure InitResult where
  holder : Option Config
  outcome : Except InitError Unit
  authRequests : List HttpRequest
deriving Repr

/-- Embedding of the init entry point (Python `initialize`): a populated
holder returns at once; otherwise the parsed CLI namespace is stored in the
holder immediately, the help guard may exit, fields are resolved, the
fail-on-error policy is set, and authentication runs — every failure leaving
the holder as it stands at that point.  `hasCliArgv` models
`len(sys.argv) > 1`; `rawConfig` is `None` when no config file was found. -/
def runInit : Option Config → CliArgs → Bool → Option ConfigFiles →
    (HttpRequest → HttpResponse) → InitResult
  | some c, _, _, _, _ => ⟨some c, .ok (), []⟩
  | none, args, hasCliArgv, rawConfig, http =>
    if !hasCliArgv && rawConfig.isNone then
      ⟨some (configOfArgs args), .error .helpExit, []⟩
    else
      match resolveStep args (rawConfig.getD emptyConfigFiles) with
      | (cfg, .error e) => ⟨some cfg, .error e, []⟩
      | (cfg, .ok ()) =>
        let a := authenticate (set_fail_on_error cfg) http
        ⟨some a.config, a.outcome, a.requests⟩

/-! ### Config file locations (`xmapi/configfile.py`) -/

/-- Scope of a candidate configuration file location. -/
inductive ConfigScope where
  | USER
  | GLOBAL
  | PROJECT
deriving Repr, DecidableEq

/-- Environment variables visible to the process. -/
structure Env where
  vars : List (String × String)
deriving Repr, DecidableEq

/-- Environment variable lookup. -/
def Env.get? (e : Env) (k : String) : Option String := lookupKV e.vars k

/-- Embedding of `_get_for_darwin`. -/
def get_for_darwin (env : Env) (which : ConfigScope) : Option String :=
  if which = .GLOBAL then some "/Users/Shared"
  else if which = .USER then env.get? "HOME"
  else none

/-- Embedding of `_get_for_linux`. -/
def get_for_linux (env : Env) (which : ConfigScope) : Option String :=
  if which = .GLOBAL then some "/etc"
  else if which = .USER then
    match env.get? "HOME" with
    | some h => some h
    | none => some "~"
  else none

/-- Embedding of `_get_for_windows`. -/
def get_for_windows (env : Env) (which : ConfigScope) : Option String :=
  if which = .GLOBAL then env.get? "AppDataFolder"
  else if which = .USER then
    match env.get? "LocalAppDataFolder" with
    | some h => some h
    | none => some "~"
  else none

/-- Embedding of `_default_get`: user home `~` only. -/
def default_get (which : ConfigScope) : Option String :=
  if which = .USER then some "~" else none

/-- Embedding of `_get_for_java`, which delegates to the default strategy. -/
def get_for_java (_env : Env) (which : ConfigScope) : Option String :=
  default_get which

/-- Embedding of the `paths` dispatch table plus the fallback branch of
`_get_locations`: an unrecognized system name uses `_default_get`. -/
def pathsGet (sysName : String) (env : Env) : ConfigScope → Option String :=
  if sysName = "Darwin" then get_for_darwin env
  else if sysName = "Linux" then get_for_linux env
  else if sysName = "Windows" then get_for_windows env
  else if sysName = "Java" then get_for_java env
  else default_get

/-- Embedding of `_add`: the PROJECT scope always contributes `xmapi.ini`;
other scopes ask the strategy for a base directory and are omitted when it
yields nothing truthy. -/
def add_location (locations : List (ConfigScope × String))
    (callback : ConfigScope → Option String) (scope : ConfigScope) :
    List (ConfigScope × String) :=
  let next : Option String :=
    if scope = .PROJECT then some "xmapi.ini"
    else
      match callback scope with
      | some n => if n = "" then none else some (n ++ "/.xmcyber/xmapi.ini")
      | none => none
  match next with
  | some n => locations ++ [(scope, n)]
  | none => locations

/-- Embedding of `_get_locations`: GLOBAL, USER, PROJECT in order. -/
def get_locations (sysName : String) (env : Env) : List (ConfigScope × String) :=
  let g := pathsGet sysName env
  add_location (add_location (add_location [] g .GLOBAL) g .USER) g .PROJECT

/-! ### Concrete fixtures used by witnesses and counterexamples -/

/-- Transport whose auth endpoint answers 200 with both token fields. -/
def httpAuthOk : HttpRequest → HttpResponse :=
  fun _ => ⟨200, [("accessToken", "atok"), ("refreshToken", "rtok")]⟩

/-- Transport answering 401 with an empty body. -/
def httpAuth401 : HttpRequest → HttpResponse := fun _ => ⟨401, []⟩

/-- Transport answering 500 with an empty body. -/
def http500 : HttpRequest → HttpResponse := fun _ => ⟨500, []⟩

/-- Command line supplying subdomain and key only. -/
def argsEx : CliArgs :=
  { subdomain := some "acme", key := some "abc123", chunk := "DEFAULT",
    quiet := false, verbose := false, proxy_port := none, proxy_url := none }

/-- Command line supplying both proxy settings as well. -/
def argsProxyBoth : CliArgs :=
  { argsEx with proxy_url := some "http://proxy.local", proxy_port := some "8080" }

/-- Configuration as it stands after a successful initialization. -/
def cfgEx : Config :=
  { subdomain := some "acme", key := some "abc123", chunk := "DEFAULT",
    quiet := false, verbose := false, proxy_port := none, proxy_url := none,
    url := some "https://acme.clients.xmcyber.com", fail_on_error := some true,
    access_token := some "atok", refresh_token := some "rtok" }

/-- Config file set with a `prod` section and a DEFAULT key. -/
def cfEx : ConfigFiles :=
  ⟨[("prod", [("subdomain", "prodsub")])], [("key", "defkey")]⟩

/-- Configuration as it stands just before `_authenticate` runs. -/
def cfgPreAuth : Config :=
  { subdomain := some "acme", key := some "abc123", chunk := "DEFAULT",
    quiet := false, verbose := false, proxy_port := none, proxy_url := none,
    url := some "https://acme.clients.xmcyber.com", fail_on_error := some true,
    access_token := none, refresh_token := none }

/-! ## Theorems -/

/-- Helper: the resolution phase never touches the token fields. -/
theorem resolveStep_tokens_none (args : CliArgs) (raw : ConfigFiles) :
    (resolveStep args raw).1.access_token = none ∧
    (resolveStep args raw).1.refresh_token = none := by
  simp only [resolveStep]
  split_ifs <;> exact ⟨rfl, rfl⟩

/-- Helper: when the resolution phase succeeds, the subdomain and key fields
of the resulting configuration are the values resolved by `_get_item` and
both are truthy. -/
theorem resolveStep_ok_truthy (args : CliArgs) (raw : ConfigFiles)
    (h : (resolveStep args raw).2 = .ok ()) :
    (resolveStep args raw).1.subdomain =
      get_item raw args.subdomain "subdomain" none args.chunk ∧
    (resolveStep args raw).1.key =
      get_item raw args.key "key" none args.chunk ∧
    truthy (resolveStep args raw).1.subdomain = true ∧
    truthy (resolveStep args raw).1.key = true := by
  simp only [resolveStep] at h ⊢
  split_ifs at h ⊢ with h1 h2 <;>
    simp_all [Bool.not_eq_false]

/-- Helper: `_authenticate` issues exactly its one POST. -/
theorem authenticate_requests_eq (cfg : Config)
    (http : HttpRequest → HttpResponse) :
    (authenticate cfg http).requests = [mkAuthRequest cfg] := by
  simp only [authenticate]
  split
  · rfl
  · split
    · rfl
    · split <;> rfl

/-- Helper: `_authenticate` never changes the subdomain or key fields. -/
theorem authenticate_preserves_ids (cfg : Config)
    (http : HttpRequest → HttpResponse) :
    (authenticate cfg http).config.subdomain = cfg.subdomain ∧
    (authenticate cfg http).config.key = cfg.key := by
  simp only [authenticate]
  split
  · exact ⟨rfl, rfl⟩
  · split
    · exact ⟨rfl, rfl⟩
    · split <;> exact ⟨rfl, rfl⟩

/-- Helper: a non-200 answer from the auth endpoint makes `_authenticate`
raise with the status code and leave the configuration untouched. -/
theorem authenticate_non200 (cfg : Config) (http : HttpRequest → HttpResponse)
    (h : (http (mkAuthRequest cfg)).status_code ≠ 200) :
    authenticate cfg http =
      ⟨cfg, [mkAuthRequest cfg],
       .error (.authFailed (http (mkAuthRequest cfg)).status_code)⟩ := by
  have hb : ((http (mkAuthRequest cfg)).status_code != 200) = true := by
    simpa using h
  simp [authenticate, hb]

/-- C2: Configuration resolution fails whenever subdomain or key cannot be
determined from any source; equivalently, after a successful initialization
the stored configuration holds exactly the per-field resolved subdomain and
key and both are truthy (non-empty), so a resolution leaving either one
falsy never completes normally. -/
theorem C2_success_implies_subdomain_and_key
    (args : CliArgs) (hasCliArgv : Bool) (rawConfig : Option ConfigFiles)
    (http : HttpRequest → HttpResponse)
    (h : (runInit none args hasCliArgv rawConfig http).outcome = .ok ()) :
    ∃ c, (runInit none args hasCliArgv rawConfig http).holder = some c ∧
      c.subdomain = get_item (rawConfig.getD emptyConfigFiles) args.subdomain
        "subdomain" none args.chunk ∧
      c.key = get_item (rawConfig.getD emptyConfigFiles) args.key
        "key" none args.chunk ∧
      truthy c.subdomain = true ∧ truthy c.key = true := by
  simp only [runInit] at h ⊢
  by_cases hg : (!hasCliArgv && rawConfig.isNone) = true
  · rw [if_pos hg] at h
    simp at h
  · rw [if_neg hg] at h ⊢
    rcases hr : resolveStep args (rawConfig.getD emptyConfigFiles) with ⟨cfg, res⟩
    rw [hr] at h
    cases res with
    | error e => exact Except.noConfusion h
    | ok u =>
      cases u
      have hra := resolveStep_ok_truthy args (rawConfig.getD emptyConfigFiles)
        (by rw [hr])
      rw [hr] at hra
      obtain ⟨hfs, hfk, hts, htk⟩ := hra
      have hps := (authenticate_preserves_ids (set_fail_on_error cfg) http).1
      have hpk := (authenticate_preserves_ids (set_fail_on_error cfg) http).2
      have hss : (set_fail_on_error cfg).subdomain = cfg.subdomain := rfl
      have hsk : (set_fail_on_error cfg).key = cfg.key := rfl
      refine ⟨(authenticate (set_fail_on_error cfg) http).config, rfl,
        ?_, ?_, ?_, ?_⟩
      · rw [hps, hss]; exact hfs
      · rw [hpk, hsk]; exact hfk
      · rw [hps, hss]; exact hts
      · rw [hpk, hsk]; exact htk

/-- Witness for C2: a concrete run with subdomain and key on the command
line and an auth endpoint answering 200 succeeds with both fields truthy. -/
theorem C2_witness :
    ∃ c, (runInit none argsEx true none httpAuthOk).holder = some c ∧
      c.subdomain = get_item (Option.getD none emptyConfigFiles)
        argsEx.subdomain "subdomain" none argsEx.chunk ∧
      c.key = get_item (Option.getD none emptyConfigFiles) argsEx.key
        "key" none argsEx.chunk ∧
      truthy c.subdomain = true ∧ truthy c.key = true :=
  C2_success_implies_subdomain_and_key argsEx true none httpAuthOk (by rfl)

/-- Helper: once subdomain and key resolve truthy, the resolution outcome is
exactly the proxy-pair check. -/
theorem resolveStep_proxy_outcome (args : CliArgs) (raw : ConfigFiles)
    (hs : truthy (get_item raw args.subdomain "subdomain" none args.chunk) = true)
    (hk : truthy (get_item raw args.key "key" none args.chunk) = true) :
    (resolveStep args raw).2 =
      (if truthy (get_item raw args.proxy_url "proxy_url" none args.chunk) then
        if truthy (get_item raw args.proxy_port "proxy_port" none args.chunk) then
          Except.ok ()
        else Except.error .proxyUrlWithoutPort
      else if truthy (get_item raw args.proxy_port "proxy_port" none args.chunk) then
        Except.error .proxyPortWithoutUrl
      else Except.ok ()) := by
  simp only [resolveStep, hs, hk]
  split_ifs <;> simp_all

/-- Helper: every run of the init entry point from an empty holder leaves the
holder populated. -/
theorem runInit_none_holder_isSome (args : CliArgs) (hasCliArgv : Bool)
    (rawConfig : Option ConfigFiles) (http : HttpRequest → HttpResponse) :
    ∃ c, (runInit none args hasCliArgv rawConfig http).holder = some c := by
  simp only [runInit]
  split
  · exact ⟨_, rfl⟩
  · rcases hr : resolveStep args (rawConfig.getD emptyConfigFiles) with ⟨cfg, res⟩
    cases res with
    | error e => exact ⟨cfg, rfl⟩
    | ok u => cases u; exact ⟨_, rfl⟩

/-- C3: For every combination of resolved proxy settings, once resolution
reaches the proxy-pair check (help guard passed, subdomain and key truthy):
exactly one of proxy_url/proxy_port set makes resolution fail with the
corresponding configuration error, while both-set or both-unset passes the
check and resolution proceeds to issue the authentication request. -/
theorem C3_proxy_pair_validation
    (args : CliArgs) (hasCliArgv : Bool) (rawConfig : Option ConfigFiles)
    (http : HttpRequest → HttpResponse)
    (hg : (!hasCliArgv && rawConfig.isNone) = false)
    (hs : truthy (get_item (rawConfig.getD emptyConfigFiles) args.subdomain
      "subdomain" none args.chunk) = true)
    (hk : truthy (get_item (rawConfig.getD emptyConfigFiles) args.key
      "key" none args.chunk) = true) :
    (truthy (get_item (rawConfig.getD emptyConfigFiles) args.proxy_url
        "proxy_url" none args.chunk) = true →
      truthy (get_item (rawConfig.getD emptyConfigFiles) args.proxy_port
        "proxy_port" none args.chunk) = false →
      (runInit none args hasCliArgv rawConfig http).outcome =
        .error .proxyUrlWithoutPort) ∧
    (truthy (get_item (rawConfig.getD emptyConfigFiles) args.proxy_url
        "proxy_url" none args.chunk) = false →
      truthy (get_item (rawConfig.getD emptyConfigFiles) args.proxy_port
        "proxy_port" none args.chunk) = true →
      (runInit none args hasCliArgv rawConfig http).outcome =
        .error .proxyPortWithoutUrl) ∧
    (truthy (get_item (rawConfig.getD emptyConfigFiles) args.proxy_url
        "proxy_url" none args.chunk) =
      truthy (get_item (rawConfig.getD emptyConfigFiles) args.proxy_port
        "proxy_port" none args.chunk) →
      (runInit none args hasCliArgv rawConfig http).authRequests.length = 1) := by
  have hg' : ¬((!hasCliArgv && rawConfig.isNone) = true) := by simp [hg]
  have hout := resolveStep_proxy_outcome args (rawConfig.getD emptyConfigFiles) hs hk
  refine ⟨?_, ?_, ?_⟩
  · intro hpu hpp
    simp only [runInit]
    rw [if_neg hg']
    rcases hr : resolveStep args (rawConfig.getD emptyConfigFiles) with ⟨cfg, r2⟩
    rw [hr] at hout
    have hr2 : r2 = .error .proxyUrlWithoutPort := by
      simpa [hpu, hpp] using hout
    subst hr2
    rfl
  · intro hpu hpp
    simp only [runInit]
    rw [if_neg hg']
    rcases hr : resolveStep args (rawConfig.getD emptyConfigFiles) with ⟨cfg, r2⟩
    rw [hr] at hout
    have hr2 : r2 = .error .proxyPortWithoutUrl := by
      simpa [hpu, hpp] using hout
    subst hr2
    rfl
  · intro hpep
    simp only [runInit]
    rw [if_neg hg']
    rcases hr : resolveStep args (rawConfig.getD emptyConfigFiles) with ⟨cfg, r2⟩
    rw [hr] at hout
    have hr2 : r2 = .ok () := by
      cases hpu : truthy (get_item (rawConfig.getD emptyConfigFiles) args.proxy_url
          "proxy_url" none args.chunk) <;> simp_all
    subst hr2
    show (authenticate (set_fail_on_error cfg) http).requests.length = 1
    rw [authenticate_requests_eq]
    rfl

/-- Witness for C3: with both proxy settings supplied on the command line the
check passes and exactly one authentication request goes out. -/
theorem C3_witness :
    (runInit none argsProxyBoth true none httpAuthOk).authRequests.length = 1 :=
  (C3_proxy_pair_validation argsProxyBoth true none httpAuthOk (by rfl)
    (by rfl) (by rfl)).2.2 (by rfl)

/-- C7: Invoking the init entry point again after a successful first
initialization is a no-op: it returns without error, issues no
authentication request, and leaves the stored configuration unchanged. -/
theorem C7_reinit_is_noop
    (args : CliArgs) (hasCliArgv : Bool) (rawConfig : Option ConfigFiles)
    (http : HttpRequest → HttpResponse)
    (args2 : CliArgs) (hasCliArgv2 : Bool) (rawConfig2 : Option ConfigFiles)
    (http2 : HttpRequest → HttpResponse)
    (_h : (runInit none args hasCliArgv rawConfig http).outcome = .ok ()) :
    runInit (runInit none args hasCliArgv rawConfig http).holder args2
        hasCliArgv2 rawConfig2 http2 =
      ⟨(runInit none args hasCliArgv rawConfig http).holder, .ok (), []⟩ := by
  obtain ⟨c, hc⟩ := runInit_none_holder_isSome args hasCliArgv rawConfig http
  rw [hc]
  rfl

/-- Witness for C7: a concrete successful initialization followed by a
second call that changes nothing. -/
theorem C7_witness :
    runInit (runInit none argsEx true none httpAuthOk).holder argsEx true
        none httpAuthOk =
      ⟨(runInit none argsEx true none httpAuthOk).holder, .ok (), []⟩ :=
  C7_reinit_is_noop argsEx true none httpAuthOk argsEx true none httpAuthOk
    (by rfl)

/-- Helper: when `_authenticate` fails with the auth status error it has not
modified the configuration. -/
theorem authenticate_authFailed_config (cfg : Config)
    (http : HttpRequest → HttpResponse) (n : Nat)
    (h : (authenticate cfg http).outcome = .error (.authFailed n)) :
    (authenticate cfg http).config = cfg := by
  by_cases hs : ((http (mkAuthRequest cfg)).status_code != 200) = true
  · simp [authenticate, hs]
  · exfalso
    simp only [authenticate, hs] at h
    rcases ha : lookupKV (http (mkAuthRequest cfg)).jsonBody "accessToken"
      with _ | a
    · rw [ha] at h
      exact absurd (Except.error.inj h) (by simp)
    · rw [ha] at h
      rcases hb : lookupKV (http (mkAuthRequest cfg)).jsonBody "refreshToken"
        with _ | b
      · rw [hb] at h
        exact absurd (Except.error.inj h) (by simp)
      · rw [hb] at h
        exact Except.noConfusion h

/-- Helper: `_authenticate` only ever raises the auth status error or a
missing JSON field error. -/
theorem authenticate_error_shape (cfg : Config)
    (http : HttpRequest → HttpResponse) (e : InitError)
    (h : (authenticate cfg http).outcome = .error e) :
    (∃ n, e = .authFailed n) ∨ (∃ f, e = .missingField f) := by
  by_cases hs : ((http (mkAuthRequest cfg)).status_code != 200) = true
  · left
    refine ⟨(http (mkAuthRequest cfg)).status_code, ?_⟩
    simp only [authenticate, hs, if_true] at h
    exact (Except.error.inj h).symm
  · simp only [authenticate, hs, Bool.false_eq_true, if_false] at h
    rcases ha : lookupKV (http (mkAuthRequest cfg)).jsonBody "accessToken"
      with _ | a
    · rw [ha] at h
      exact Or.inr ⟨"accessToken", (Except.error.inj h).symm⟩
    · rw [ha] at h
      rcases hb : lookupKV (http (mkAuthRequest cfg)).jsonBody "refreshToken"
        with _ | b
      · rw [hb] at h
        exact Or.inr ⟨"refreshToken", (Except.error.inj h).symm⟩
      · rw [hb] at h
        exact Except.noConfusion h

/-- C9: Initialization is not atomic with respect to failure: whenever the
init entry point fails, the process-wide holder is left populated, so
`get_config` returns the partially initialized configuration instead of
raising, and a later init call is an immediate no-op; on an authentication
failure carrying a status, no token was stored. -/
theorem C9_failed_init_leaves_holder_populated
    (args : CliArgs) (hasCliArgv : Bool) (rawConfig : Option ConfigFiles)
    (http : HttpRequest → HttpResponse) (e : InitError)
    (h : (runInit none args hasCliArgv rawConfig http).outcome = .error e) :
    ∃ c, (runInit none args hasCliArgv rawConfig http).holder = some c ∧
      get_config (runInit none args hasCliArgv rawConfig http).holder = .ok c ∧
      (∀ args2 hasCliArgv2 rawConfig2 http2,
        runInit (some c) args2 hasCliArgv2 rawConfig2 http2 =
          ⟨some c, .ok (), []⟩) ∧
      ((∃ n, e = .authFailed n) ∨ e = .helpExit ∨ e = .noSubdomain ∨
        e = .noKey ∨ e = .proxyUrlWithoutPort ∨ e = .proxyPortWithoutUrl →
        c.access_token = none ∧ c.refresh_token = none) := by
  simp only [runInit] at h ⊢
  by_cases hg : (!hasCliArgv && rawConfig.isNone) = true
  · rw [if_pos hg] at h ⊢
    exact ⟨configOfArgs args, rfl, rfl, fun _ _ _ _ => trivial,
      fun _ => ⟨rfl, rfl⟩⟩
  · rw [if_neg hg] at h ⊢
    rcases hr : resolveStep args (rawConfig.getD emptyConfigFiles) with ⟨cfg, res⟩
    rw [hr] at h
    cases res with
    | error e2 =>
      refine ⟨cfg, rfl, rfl, fun _ _ _ _ => trivial, fun _ => ?_⟩
      have ht := resolveStep_tokens_none args (rawConfig.getD emptyConfigFiles)
      rw [hr] at ht
      exact ht
    | ok u =>
      cases u
      refine ⟨(authenticate (set_fail_on_error cfg) http).config, rfl, rfl,
        fun _ _ _ _ => trivial, ?_⟩
      intro hset
      have hshape := authenticate_error_shape (set_fail_on_error cfg) http e h
      rcases hshape with ⟨n, hn⟩ | ⟨f, hf⟩
      · have hout : (authenticate (set_fail_on_error cfg) http).outcome =
            .error (.authFailed n) := by
          rw [hn] at h
          exact h
        have hcfg := authenticate_authFailed_config (set_fail_on_error cfg)
          http n hout
        rw [hcfg]
        have ht := resolveStep_tokens_none args (rawConfig.getD emptyConfigFiles)
        rw [hr] at ht
        exact ht
      · exfalso
        subst hf
        simp at hset

/-- Witness for C9: an auth endpoint answering 401 makes the init fail with
the status error while the holder stays populated. -/
theorem C9_witness :
    ∃ c, (runInit none argsEx true none httpAuth401).holder = some c ∧
      get_config (runInit none argsEx true none httpAuth401).holder = .ok c ∧
      (∀ args2 hasCliArgv2 rawConfig2 http2,
        runInit (some c) args2 hasCliArgv2 rawConfig2 http2 =
          ⟨some c, .ok (), []⟩) ∧
      ((∃ n, InitError.authFailed 401 = .authFailed n) ∨
        InitError.authFailed 401 = .helpExit ∨
        InitError.authFailed 401 = .noSubdomain ∨
        InitError.authFailed 401 = .noKey ∨
        InitError.authFailed 401 = .proxyUrlWithoutPort ∨
        InitError.authFailed 401 = .proxyPortWithoutUrl →
        c.access_token = none ∧ c.refresh_token = none) :=
  C9_failed_init_leaves_holder_populated argsEx true none httpAuth401
    (.authFailed 401) (by rfl)

/-- C4: The authenticator issues a single unauthenticated POST to the fixed
`/api/auth/` endpoint with the API key in the `X-Api-Key` header; a non-200
response raises an authentication error carrying the status code with both
tokens left unset; a 200 response stores the `accessToken` and
`refreshToken` JSON fields, failing when either is absent. -/
theorem C4_authenticator_contract (cfg : Config)
    (http : HttpRequest → HttpResponse) (u k : String)
    (hu : cfg.url = some u) (hk : cfg.key = some k)
    (ha0 : cfg.access_token = none) (hr0 : cfg.refresh_token = none) :
    (authenticate cfg http).requests = [mkAuthRequest cfg] ∧
    (mkAuthRequest cfg).verb = "post" ∧
    (mkAuthRequest cfg).url = u ++ "/api/auth/" ∧
    (mkAuthRequest cfg).headers = [("X-Api-Key", k)] ∧
    ((http (mkAuthRequest cfg)).status_code ≠ 200 →
      (authenticate cfg http).outcome =
        .error (.authFailed (http (mkAuthRequest cfg)).status_code) ∧
      (authenticate cfg http).config.access_token = none ∧
      (authenticate cfg http).config.refresh_token = none) ∧
    ((http (mkAuthRequest cfg)).status_code = 200 →
      (∀ tok rtok,
        lookupKV (http (mkAuthRequest cfg)).jsonBody "accessToken" = some tok →
        lookupKV (http (mkAuthRequest cfg)).jsonBody "refreshToken" = some rtok →
        (authenticate cfg http).outcome = .ok () ∧
        (authenticate cfg http).config.access_token = some tok ∧
        (authenticate cfg http).config.refresh_token = some rtok) ∧
      (lookupKV (http (mkAuthRequest cfg)).jsonBody "accessToken" = none →
        (authenticate cfg http).outcome = .error (.missingField "accessToken")) ∧
      (∀ tok,
        lookupKV (http (mkAuthRequest cfg)).jsonBody "accessToken" = some tok →
        lookupKV (http (mkAuthRequest cfg)).jsonBody "refreshToken" = none →
        (authenticate cfg http).outcome =
          .error (.missingField "refreshToken"))) := by
  refine ⟨authenticate_requests_eq cfg http, rfl, ?_, ?_, ?_, ?_⟩
  · simp [mkAuthRequest, hu]
  · simp [mkAuthRequest, hk]
  · intro hne
    rw [authenticate_non200 cfg http hne]
    exact ⟨rfl, ha0, hr0⟩
  · intro h200
    have hb : ((http (mkAuthRequest cfg)).status_code != 200) = false := by
      simp [h200]
    refine ⟨?_, ?_, ?_⟩
    · intro tok rtok hta htr
      simp only [authenticate, hb, Bool.false_eq_true, if_false, hta, htr]
      exact ⟨trivial, trivial, trivial⟩
    · intro hta
      simp only [authenticate, hb, Bool.false_eq_true, if_false, hta]
    · intro tok hta htr
      simp only [authenticate, hb, Bool.false_eq_true, if_false, hta, htr]

/-- Witness for C4 at a concrete pre-auth configuration and a 401 answer. -/
theorem C4_witness :
    (authenticate cfgPreAuth httpAuth401).requests = [mkAuthRequest cfgPreAuth] ∧
    (mkAuthRequest cfgPreAuth).verb = "post" ∧
    (mkAuthRequest cfgPreAuth).url =
      "https://acme.clients.xmcyber.com" ++ "/api/auth/" ∧
    (mkAuthRequest cfgPreAuth).headers = [("X-Api-Key", "abc123")] ∧
    ((httpAuth401 (mkAuthRequest cfgPreAuth)).status_code ≠ 200 →
      (authenticate cfgPreAuth httpAuth401).outcome =
        .error (.authFailed (httpAuth401 (mkAuthRequest cfgPreAuth)).status_code) ∧
      (authenticate cfgPreAuth httpAuth401).config.access_token = none ∧
      (authenticate cfgPreAuth httpAuth401).config.refresh_token = none) ∧
    ((httpAuth401 (mkAuthRequest cfgPreAuth)).status_code = 200 →
      (∀ tok rtok,
        lookupKV (httpAuth401 (mkAuthRequest cfgPreAuth)).jsonBody
          "accessToken" = some tok →
        lookupKV (httpAuth401 (mkAuthRequest cfgPreAuth)).jsonBody
          "refreshToken" = some rtok →
        (authenticate cfgPreAuth httpAuth401).outcome = .ok () ∧
        (authenticate cfgPreAuth httpAuth401).config.access_token = some tok ∧
        (authenticate cfgPreAuth httpAuth401).config.refresh_token = some rtok) ∧
      (lookupKV (httpAuth401 (mkAuthRequest cfgPreAuth)).jsonBody
          "accessToken" = none →
        (authenticate cfgPreAuth httpAuth401).outcome =
          .error (.missingField "accessToken")) ∧
      (∀ tok,
        lookupKV (httpAuth401 (mkAuthRequest cfgPreAuth)).jsonBody
          "accessToken" = some tok →
        lookupKV (httpAuth401 (mkAuthRequest cfgPreAuth)).jsonBody
          "refreshToken" = none →
        (authenticate cfgPreAuth httpAuth401).outcome =
          .error (.missingField "refreshToken"))) :=
  C4_authenticator_contract cfgPreAuth httpAuth401
    "https://acme.clients.xmcyber.com" "abc123" rfl rfl rfl rfl

/-- Helper: every branch of `api_request` reports the same built request. -/
theorem api_request_request_eq (cfg : Config)
    (http : HttpRequest → HttpResponse) (on_error : HttpResponse → HandlerAction)
    (verb : String) (path : ApiPath) (encode_path : Bool)
    (data : Option String) (params headers : List (String × String)) :
    (api_request cfg http on_error verb path encode_path data params
        headers).request =
      mkApiRequest cfg verb path encode_path data params headers := by
  simp only [api_request]
  split
  · split <;> rfl
  · rfl

/-- C6: For every facade call whose response status is outside 200–299, the
default error handler reads the process-wide fail_on_error toggle at call
time: when true it raises an error carrying the status code, when false it
logs the status code and the call returns the raw response; 2xx responses
never invoke the handler. -/
theorem C6_default_error_policy (cfg : Config)
    (http : HttpRequest → HttpResponse) (verb : String) (path : ApiPath)
    (encode_path : Bool) (data : Option String)
    (params headers : List (String × String)) (b : Bool)
    (hb : cfg.fail_on_error = some b) :
    ((200 ≤ (http (mkApiRequest cfg verb path encode_path data params
          headers)).status_code ∧
      (http (mkApiRequest cfg verb path encode_path data params
          headers)).status_code ≤ 299) →
      (api_request cfg http (default_on_error cfg) verb path encode_path data
          params headers).handler_invoked = false ∧
      (api_request cfg http (default_on_error cfg) verb path encode_path data
          params headers).outcome =
        .ok (http (mkApiRequest cfg verb path encode_path data params
          headers)) ∧
      (api_request cfg http (default_on_error cfg) verb path encode_path data
          params headers).logs = []) ∧
    (((http (mkApiRequest cfg verb path encode_path data params
          headers)).status_code < 200 ∨
      299 < (http (mkApiRequest cfg verb path encode_path data params
          headers)).status_code) →
      (api_request cfg http (default_on_error cfg) verb path encode_path data
          params headers).handler_invoked = true ∧
      (b = true →
        (api_request cfg http (default_on_error cfg) verb path encode_path
            data params headers).outcome =
          .error (.apiError (http (mkApiRequest cfg verb path encode_path
            data params headers)).status_code)) ∧
      (b = false →
        (api_request cfg http (default_on_error cfg) verb path encode_path
            data params headers).outcome =
          .ok (http (mkApiRequest cfg verb path encode_path data params
            headers)) ∧
        (api_request cfg http (default_on_error cfg) verb path encode_path
            data params headers).logs =
          [errorLogLine (http (mkApiRequest cfg verb path encode_path data
            params headers)).status_code])) := by
  constructor
  · intro hin
    have hc : ((http (mkApiRequest cfg verb path encode_path data params
        headers)).status_code < 200 ||
        (http (mkApiRequest cfg verb path encode_path data params
          headers)).status_code > 299) = false := by
      simp only [Bool.or_eq_false_iff, decide_eq_false_iff_not, not_lt]
      omega
    simp [api_request, hc]
  · intro hout
    have hc : ((http (mkApiRequest cfg verb path encode_path data params
        headers)).status_code < 200 ||
        (http (mkApiRequest cfg verb path encode_path data params
          headers)).status_code > 299) = true := by
      rcases hout with h1 | h1 <;> simp [h1]
    cases b with
    | true => simp [api_request, hc, default_on_error, hb, fail_on_error]
    | false => simp [api_request, hc, default_on_error, hb, log_on_error]

/-- Witness for C6: a 500 answer under the fail policy raises the API error
carrying status 500. -/
theorem C6_witness :
    (api_request cfgEx http500 (default_on_error cfgEx) "get" (.str "sensors")
        false none [] []).outcome = .error (.apiError 500) :=
  ((C6_default_error_policy cfgEx http500 "get" (.str "sensors") false none
      [] [] true rfl).2 (by exact Or.inr (by decide))).2.1 rfl

/-- Helper: setting a header makes it the value subsequently looked up. -/
theorem lookupKV_set_header (hs : List (String × String)) (k v : String) :
    lookupKV (set_header hs k v) k = some v := by
  unfold set_header
  induction hs with
  | nil => simp [lookupKV]
  | cons p t ih =>
    rcases p with ⟨a, w⟩
    by_cases ha : a = k
    · subst ha
      simpa [lookupKV] using ih
    · simp only [List.filter_cons]
      have h1 : (a != k) = true := by simpa using ha
      simp only [h1, if_true, lookupKV]
      have h2 : (a == k) = false := by simpa using ha
      simp [h2, ih]

/-- Helper: `_build_path` always emits `/api/` followed by the joined,
optionally encoded path. -/
theorem build_path_eq_joined (path : ApiPath) (encode_path : Bool) :
    build_path path encode_path = "/api/" ++ joined_path path encode_path := by
  cases path <;> cases encode_path <;> rfl

/-- C5 counterexample: the facade does not emit the base URL followed by
exactly `/api/...`; `api_request` inserts a separator slash in front of the
already slash-prefixed built path, yielding a double slash. -/
theorem C5_counterexample :
    (api_request cfgEx httpAuthOk (default_on_error cfgEx) "get"
        (.str "sensors") false none [] []).request.url =
      "https://acme.clients.xmcyber.com//api/sensors" ∧
    (api_request cfgEx httpAuthOk (default_on_error cfgEx) "get"
        (.str "sensors") false none [] []).request.url ≠
      "https://acme.clients.xmcyber.com" ++ "/api/" ++ "sensors" := by
  constructor
  · rfl
  · decide

/-- C5 (amended): every facade call issues its request to the URL formed
from the configured base URL followed by a separator slash and then `/api/`
and the joined (optionally per-segment percent-encoded) path — so the full
URL contains a double slash between the base and `api` — and carries the
header `Authorization: Bearer <access_token>`; the verb wrappers delegate to
`api_request`. -/
theorem C5_request_url_and_bearer (cfg : Config)
    (http : HttpRequest → HttpResponse) (on_error : HttpResponse → HandlerAction)
    (verb : String) (path : ApiPath) (encode_path : Bool)
    (data : Option String) (params headers : List (String × String))
    (u t : String) (hu : cfg.url = some u) (ht : cfg.access_token = some t) :
    (api_request cfg http on_error verb path encode_path data params
        headers).request.url =
      u ++ "//api/" ++ joined_path path encode_path ∧
    lookupKV (api_request cfg http on_error verb path encode_path data params
        headers).request.headers "Authorization" = some ("Bearer " ++ t) ∧
    api_get cfg http on_error path encode_path data params headers =
      api_request cfg http on_error "get" path encode_path data params headers ∧
    api_put cfg http on_error path encode_path data params headers =
      api_request cfg http on_error "put" path encode_path data params headers ∧
    api_post cfg http on_error path encode_path data params headers =
      api_request cfg http on_error "post" path encode_path data params headers ∧
    api_delete cfg http on_error path encode_path data params headers =
      api_request cfg http on_error "delete" path encode_path data params
        headers := by
  refine ⟨?_, ?_, rfl, rfl, rfl, rfl⟩
  · rw [api_request_request_eq]
    simp only [mkApiRequest, hu, Option.getD_some]
    rw [build_path_eq_joined]
    simp only [String.append_assoc]
    congr 1
  · rw [api_request_request_eq]
    simp only [mkApiRequest, ht, Option.getD_some]
    exact lookupKV_set_header headers "Authorization" ("Bearer " ++ t)

/-- Witness for C5 (amended) at a concrete configuration and path. -/
theorem C5_witness :
    (api_request cfgEx httpAuthOk (default_on_error cfgEx) "get"
        (.str "sensors") false none [] []).request.url =
      "https://acme.clients.xmcyber.com" ++ "//api/" ++
        joined_path (.str "sensors") false ∧
    lookupKV (api_request cfgEx httpAuthOk (default_on_error cfgEx) "get"
        (.str "sensors") false none [] []).request.headers "Authorization" =
      some ("Bearer " ++ "atok") ∧
    api_get cfgEx httpAuthOk (default_on_error cfgEx) (.str "sensors") false
        none [] [] =
      api_request cfgEx httpAuthOk (default_on_error cfgEx) "get"
        (.str "sensors") false none [] [] ∧
    api_put cfgEx httpAuthOk (default_on_error cfgEx) (.str "sensors") false
        none [] [] =
      api_request cfgEx httpAuthOk (default_on_error cfgEx) "put"
        (.str "sensors") false none [] [] ∧
    api_post cfgEx httpAuthOk (default_on_error cfgEx) (.str "sensors") false
        none [] [] =
      api_request cfgEx httpAuthOk (default_on_error cfgEx) "post"
        (.str "sensors") false none [] [] ∧
    api_delete cfgEx httpAuthOk (default_on_error cfgEx) (.str "sensors")
        false none [] [] =
      api_request cfgEx httpAuthOk (default_on_error cfgEx) "delete"
        (.str "sensors") false none [] [] :=
  C5_request_url_and_bearer cfgEx httpAuthOk (default_on_error cfgEx) "get"
    (.str "sensors") false none [] [] "https://acme.clients.xmcyber.com"
    "atok" rfl rfl

/-- C8 counterexample: for an unrecognized OS family the produced location
list is not the user home location only — the project location `xmapi.ini`
is always appended as well. -/
theorem C8_counterexample :
    get_locations "BeOS" ⟨[]⟩ =
      [(ConfigScope.USER, "~/.xmcyber/xmapi.ini"),
       (ConfigScope.PROJECT, "xmapi.ini")] ∧
    get_locations "BeOS" ⟨[]⟩ ≠ [(ConfigScope.USER, "~/.xmcyber/xmapi.ini")] := by
  constructor
  · rfl
  · decide

/-- C8 (amended): for every unrecognized OS family and environment, the
candidate location list is the user home location followed by the project
location; the global location, whose base directory cannot be determined by
the default strategy, is omitted rather than causing a failure. -/
theorem C8_unknown_os_locations (sysName : String) (env : Env)
    (h1 : sysName ≠ "Darwin") (h2 : sysName ≠ "Linux")
    (h3 : sysName ≠ "Windows") (h4 : sysName ≠ "Java") :
    get_locations sysName env =
      [(ConfigScope.USER, "~/.xmcyber/xmapi.ini"),
       (ConfigScope.PROJECT, "xmapi.ini")] := by
  simp only [get_locations, pathsGet, if_neg h1, if_neg h2, if_neg h3, if_neg h4]
  rfl

/-- Witness for C8 (amended) at a concrete unknown OS name. -/
theorem C8_witness :
    get_locations "Atari" ⟨[("HOME", "/home/u")]⟩ =
      [(ConfigScope.USER, "~/.xmcyber/xmapi.ini"),
       (ConfigScope.PROJECT, "xmapi.ini")] :=
  C8_unknown_os_locations "Atari" ⟨[("HOME", "/home/u")]⟩ (by decide)
    (by decide) (by decide) (by decide)

/-- C10: The resolved proxy settings have no effect on HTTP traffic: the
facade request and the authentication POST are identical for two
configurations differing only in proxy_url/proxy_port, and no proxy
configuration is ever passed to the transport. -/
theorem C10_proxy_settings_unused (cfg : Config) (pu pp : Option String)
    (http : HttpRequest → HttpResponse) (on_error : HttpResponse → HandlerAction)
    (verb : String) (path : ApiPath) (encode_path : Bool)
    (data : Option String) (params headers : List (String × String)) :
    (api_request { cfg with proxy_url := pu, proxy_port := pp } http on_error
        verb path encode_path data params headers).request =
      (api_request cfg http on_error verb path encode_path data params
        headers).request ∧
    mkAuthRequest { cfg with proxy_url := pu, proxy_port := pp } =
      mkAuthRequest cfg ∧
    (authenticate { cfg with proxy_url := pu, proxy_port := pp } http).requests =
      (authenticate cfg http).requests ∧
    (api_request cfg http on_error verb path encode_path data params
        headers).request.proxies = none ∧
    (mkAuthRequest cfg).proxies = none := by
  refine ⟨?_, rfl, ?_, ?_, rfl⟩
  · rw [api_request_request_eq, api_request_request_eq]
    rfl
  · rw [authenticate_requests_eq, authenticate_requests_eq]
    rfl
  · rw [api_request_request_eq]
    rfl

/-- C1: For every field resolved by the Configuration Resolver, resolution
follows the three-tier precedence independently per field: a truthy
command-line value wins regardless of file contents; otherwise a key visible
in the named chunk section is used; otherwise a key in the DEFAULT section is
used; otherwise the caller-supplied default (absent meaning unresolved) is
returned.  Stated as: `_get_item` coincides with the spec's tiered algorithm
for every config file set, CLI value, key, default and (named, non-empty)
chunk. -/
theorem C1_get_item_follows_three_tier_precedence (cf : ConfigFiles)
    (value : Option String) (key : String) (default_value : Option String)
    (chunk : String) (h : chunk ≠ "") :
    get_item cf value key default_value chunk =
      get_item_spec cf value key default_value chunk := by
  have hbne : (chunk != "") = true := by simpa using h
  by_cases hd : chunk = "DEFAULT"
  · subst hd
    cases hv : truthy value <;>
      cases hk : lookupKV cf.defaults key <;>
        simp [get_item, get_item_spec, chunkSectionValue, ConfigFiles.hasSection,
          ConfigFiles.sectionGet, hv, hk]
  · have hbe : (chunk == "DEFAULT") = false := by
      simpa using hd
    cases hv : truthy value
    · cases hs : findSection cf.sections chunk
      · cases hk : lookupKV cf.defaults key <;>
          simp [get_item, get_item_spec, chunkSectionValue, ConfigFiles.hasSection,
            ConfigFiles.sectionGet, hv, hs, hk, hbe, hbne]
      · rename_i kvs
        cases hkk : lookupKV kvs key
        · cases hk : lookupKV cf.defaults key <;>
            simp [get_item, get_item_spec, chunkSectionValue, ConfigFiles.hasSection,
              ConfigFiles.sectionGet, hv, hs, hkk, hk, hbe, hbne]
        · simp [get_item, get_item_spec, chunkSectionValue, ConfigFiles.hasSection,
            ConfigFiles.sectionGet, hv, hs, hkk, hbe, hbne]
    · simp [get_item, get_item_spec, hv]

/-- Witness for C1 at a concrete config file set and chunk. -/
theorem C1_witness :
    ("prod" : String) ≠ "" ∧
    get_item cfEx none "subdomain" none "prod" =
      get_item_spec cfEx none "subdomain" none "prod" :=
  ⟨by decide,
   C1_get_item_follows_three_tier_precedence cfEx none "subdomain" none "prod"
     (by decide)⟩

end Xmapi
